import Mathlib

/-!
# Partner payout approval workflow — shallow embedding

This file embeds the payout-approval core of the flight-booking admin
backend: `AdminService.approvePayout` and `AdminService.rejectPayout`
(services/adminService.js) and the `approvePayout` HTTP handler
(controllers/adminController.js).

Modelling conventions:
* JavaScript numbers produced by `parseFloat` on the monetary fields are
  modelled as exact rationals (`ℚ`); the claims under study concern
  control flow and exact arithmetic identities, not IEEE-754 rounding.
* The database rows touched by the workflow (one payout row and its
  partner row) are a `Store` record threaded through the operations.
* Failures of the individual store calls and of the notifier are injected
  through an `Env` record: each supabase call site in the source either
  succeeds or reports the error that the source code destructures.
* Each store mutation is also recorded in a write log, so "makes no store
  writes" is the statement that the log is empty.
* `new Date().toISOString()` is modelled by an abstract `now : String`
  argument.
-/

/-- JavaScript's `Number.prototype.toFixed(2)`: round to the nearest
hundredth, ties toward the larger value, and print with exactly two
decimal digits. For `q` with reduced numerator `num` and positive
denominator `den`, the rounded value `⌊q * 100 + 1/2⌋` is the floor
division `(200 * num + den).fdiv (2 * den)`. -/
def toFixed2 (q : ℚ) : String :=
  let n : Int := (200 * q.num + (q.den : Int)).fdiv (2 * (q.den : Int))
  let sign := if n < 0 then "-" else ""
  let a := n.natAbs
  let ip := a / 100
  let fp := a % 100
  sign ++ toString ip ++ "." ++ (if fp < 10 then "0" else "") ++ toString fp

/-- The JSON value stored in `partners.available_balance` as seen through
`parseFloat`: a number, `null`, an absent field, or a string that
`parseFloat` cannot parse (yielding `NaN`). -/
inductive BalVal where
  | num (q : ℚ)
  | null
  | missing
  | nonNumeric (s : String)
deriving DecidableEq, Repr

/-- `parseFloat(partner.available_balance) || 0`: `parseFloat` of `null`,
`undefined` or a non-numeric string is `NaN`, and `NaN || 0` is `0`
(a numeric `0` also falls through the `||` to `0`, which is the same
value). -/
def parseFloatOr0 : BalVal → ℚ
  | .num q => q
  | .null => 0
  | .missing => 0
  | .nonNumeric _ => 0

/-- A row of the `payouts` table (the columns the workflow touches). -/
structure Payout where
  id : String
  partner_id : String
  amount : ℚ
  status : String
  approved_at : Option String
  approved_by : Option String
  processed_at : Option String
  rejected_at : Option String
  rejected_by : Option String
  rejection_reason : Option String
deriving DecidableEq, Repr

/-- A row of the `partners` table (the columns the workflow touches). -/
structure Partner where
  id : String
  available_balance : BalVal
  business_name : String
  email : String
deriving DecidableEq, Repr

/-- The slice of the database the workflow touches: the payout row under
approval (if it exists) and the partner row it references. -/
structure Store where
  payout : Option Payout
  partner : Partner
deriving DecidableEq, Repr

/-- Injected outcomes of the external calls: each supabase call site of
the source either succeeds or reports an error object, and the email
helper either succeeds or throws. -/
structure Env where
  fetchError : Bool
  payoutUpdateError : Option String
  partnerUpdateError : Option String
  rollbackFails : Bool
  rejectUpdateError : Bool
  emailFails : Bool
deriving DecidableEq, Repr

/-- The store writes the workflow can issue, in the order issued. -/
inductive WriteOp where
  | payoutApprove (id : String) (approved_at : String) (approved_by : Option String)
  | partnerBalance (partnerId : String) (newBalance : ℚ) (updated_at : String)
  | payoutRollback (id : String)
  | payoutReject (id : String) (rejected_at : String) (rejected_by : Option String)
      (reason : String)
deriving DecidableEq, Repr

/-- Notifications handed to the email service. -/
inductive EmailEvent where
  | approvalEmail (toAddr : String) (payoutId : String) (newBalance : ℚ)
  | rejectionEmail (toAddr : String) (payoutId : String) (reason : String)
deriving DecidableEq, Repr

deriving instance DecidableEq for Except

/-- The observable outcome of one service call: the value returned or the
error thrown, the final store, the store writes issued, and the emails
delivered. -/
structure Outcome (α : Type) where
  result : Except String α
  store : Store
  writes : List WriteOp
  emails : List EmailEvent
deriving DecidableEq, Repr

/-- The object returned by a successful `approvePayout`. -/
structure ApproveResult where
  message : String
  payout_id : String
  amount : ℚ
  partner_name : String
  previous_balance : ℚ
  new_balance : ℚ
deriving DecidableEq, Repr

/-- The object returned by a successful `rejectPayout`. -/
structure RejectResult where
  message : String
  payout_id : String
  rejection_reason : String
deriving DecidableEq, Repr

/-- The locals `approvePayout` has computed once the fetch and the two
guards have passed. -/
structure ApproveLocals where
  payout : Payout
  partner : Partner
  payoutAmount : ℚ
  currentAvailableBalance : ℚ
deriving DecidableEq, Repr

/-- The read/check phase of `approvePayout`: the single
`.select('*, partners!inner(...)').eq('id', payoutId).single()` fetch
(the inner join requires the referenced partner row), then the
`status !== 'pending'` guard, then the
`currentAvailableBalance < payoutAmount` guard. No store writes. -/
def approveFetchCheck (env : Env) (st : Store) (payoutId : String) :
    Except String ApproveLocals :=
  match st.payout with
  | none => .error "Payout not found"
  | some p =>
    if env.fetchError ∨ p.id ≠ payoutId ∨ p.partner_id ≠ st.partner.id then
      .error "Payout not found"
    else if p.status ≠ "pending" then
      .error ("Cannot approve payout with status: " ++ p.status)
    else
      let partner := st.partner
      let payoutAmount := p.amount
      let currentAvailableBalance := parseFloatOr0 partner.available_balance
      if currentAvailableBalance < payoutAmount then
        .error ("Insufficient partner balance. Available: $" ++
          toFixed2 currentAvailableBalance ++ ", Required: $" ++ toFixed2 payoutAmount)
      else
        .ok ⟨p, partner, payoutAmount, currentAvailableBalance⟩

/-- The write phase of `approvePayout`: (1) update the payout row —
matched by `id` alone — to `approved`, setting `approved_at`,
`approved_by`, `processed_at`; (2) write the partner's new balance; on
failure of (2), issue the best-effort rollback write (its own error is
ignored by the source) and rethrow; on success, attempt the notification
email inside a `try`/`catch` that only logs, and return the result
object. -/
def approveWritePhase (env : Env) (st : Store) (l : ApproveLocals)
    (payoutId : String) (adminId : Option String) (now : String) :
    Outcome ApproveResult :=
  match env.payoutUpdateError with
  | some m =>
    ⟨.error ("Failed to approve payout: " ++ m), st, [], []⟩
  | none =>
    let st1 : Store :=
      { st with payout := st.payout.map fun p =>
          if p.id = payoutId then
            { p with status := "approved", approved_at := some now,
                     approved_by := adminId, processed_at := some now }
          else p }
    let w1 := [WriteOp.payoutApprove payoutId now adminId]
    let newAvailableBalance := l.currentAvailableBalance - l.payoutAmount
    match env.partnerUpdateError with
    | some m =>
      let st2 : Store :=
        if env.rollbackFails then st1
        else
          { st1 with payout := st1.payout.map fun p =>
              if p.id = payoutId then
                { p with status := "pending", approved_at := none,
                         approved_by := none, processed_at := none }
              else p }
      ⟨.error ("Failed to update partner balance: " ++ m), st2,
        w1 ++ [WriteOp.payoutRollback payoutId], []⟩
    | none =>
      let st2 : Store :=
        if st1.partner.id = l.payout.partner_id then
          { st1 with partner :=
              { st1.partner with available_balance := .num newAvailableBalance } }
        else st1
      let emails :=
        if env.emailFails then []
        else [EmailEvent.approvalEmail l.partner.email payoutId newAvailableBalance]
      ⟨.ok { message := "Payout approved successfully",
             payout_id := payoutId,
             amount := l.payoutAmount,
             partner_name := l.partner.business_name,
             previous_balance := l.currentAvailableBalance,
             new_balance := newAvailableBalance },
        st2,
        w1 ++ [WriteOp.partnerBalance l.payout.partner_id newAvailableBalance now],
        emails⟩

/-- `AdminService.approvePayout(payoutId, adminId = null)`: the fetch and
guards followed by the two-phase write with compensation. -/
def approvePayout (env : Env) (st : Store) (payoutId : String)
    (adminId : Option String) (now : String) : Outcome ApproveResult :=
  match approveFetchCheck env st payoutId with
  | .error e => ⟨.error e, st, [], []⟩
  | .ok l => approveWritePhase env st l payoutId adminId now

/-- `AdminService.rejectPayout(payoutId, adminId = null, rejectionReason = '')`:
fetch payout + partner, `status !== 'pending'` guard, single update of the
payout row to `rejected` (with `rejection_reason` defaulting to
`'Rejected by admin'` when the given reason is empty), best-effort email,
and a result carrying the given reason. -/
def rejectPayout (env : Env) (st : Store) (payoutId : String)
    (adminId : Option String) (rejectionReason : String) (now : String) :
    Outcome RejectResult :=
  match st.payout with
  | none => ⟨.error "Payout not found", st, [], []⟩
  | some p =>
    if env.fetchError ∨ p.id ≠ payoutId ∨ p.partner_id ≠ st.partner.id then
      ⟨.error "Payout not found", st, [], []⟩
    else if p.status ≠ "pending" then
      ⟨.error ("Cannot reject payout with status: " ++ p.status), st, [], []⟩
    else if env.rejectUpdateError then
      ⟨.error "Failed to reject payout", st, [], []⟩
    else
      let storedReason :=
        if rejectionReason = "" then "Rejected by admin" else rejectionReason
      let st1 : Store :=
        { st with payout := st.payout.map fun q =>
            if q.id = payoutId then
              { q with status := "rejected", rejected_at := some now,
                       rejected_by := adminId, rejection_reason := some storedReason }
            else q }
      let emails :=
        if env.emailFails then []
        else [EmailEvent.rejectionEmail st.partner.email payoutId rejectionReason]
      ⟨.ok { message := "Payout rejected successfully",
             payout_id := payoutId,
             rejection_reason := rejectionReason },
        st1,
        [WriteOp.payoutReject payoutId now adminId storedReason],
        emails⟩

/-- The HTTP response shape of the controller: status code, the `success`
flag, and the `error` field when present. -/
structure HttpResponse where
  status : Nat
  success : Bool
  error : Option String
deriving DecidableEq, Repr

/-- The evaluation of the identifier `adminId` inside
`AdminController.approvePayout`: its declaration
(`const adminId = req.user.id`) is commented out and no binding named
`adminId` is in scope, so — class bodies being strict-mode code — the
reference throws `ReferenceError: adminId is not defined`. -/
def adminIdReference : Except String (Option String) :=
  .error "adminId is not defined"

/-- `AdminController.approvePayout(req, res)`: the `!payoutId` guard, then
`adminService.approvePayout(payoutId, adminId)` inside a `try` whose
`catch` responds 400 with `{ success: false, error: error.message }`.
Evaluating the `adminId` argument happens before the service is invoked,
so the thrown `ReferenceError` lands in the `catch`. The service is
abstracted as a function argument. -/
def controllerApprovePayout (payoutId : String)
    (svc : String → Option String → Except String ApproveResult) : HttpResponse :=
  if payoutId = "" then
    ⟨400, false, some "Payout ID is required"⟩
  else
    match adminIdReference with
    | .error e => ⟨400, false, some e⟩
    | .ok adminId =>
      match svc payoutId adminId with
      | .ok _ => ⟨200, true, none⟩
      | .error e => ⟨400, false, some e⟩

/-! ## Theorems -/

/-- C1: approving a pending payout with sufficient balance succeeds: the
payout becomes `approved` (with `approved_at`/`approved_by` set), the
partner's `available_balance` is decremented by exactly the amount (so
new_balance + amount = previous_balance), and the result carries the
payout id, amount, partner business name, previous balance and new
balance. -/
theorem approvePayout_success (env : Env) (p : Payout) (pn : Partner)
    (payoutId : String) (adminId : Option String) (now : String)
    (hfetch : env.fetchError = false)
    (hpu : env.payoutUpdateError = none)
    (hbu : env.partnerUpdateError = none)
    (hid : p.id = payoutId)
    (hpid : p.partner_id = pn.id)
    (hstatus : p.status = "pending")
    (hbal : p.amount ≤ parseFloatOr0 pn.available_balance) :
    (approvePayout env ⟨some p, pn⟩ payoutId adminId now).result =
      .ok ⟨"Payout approved successfully", payoutId, p.amount, pn.business_name,
           parseFloatOr0 pn.available_balance,
           parseFloatOr0 pn.available_balance - p.amount⟩ ∧
    (approvePayout env ⟨some p, pn⟩ payoutId adminId now).store.payout = some
      { p with status := "approved", approved_at := some now,
               approved_by := adminId, processed_at := some now } ∧
    (approvePayout env ⟨some p, pn⟩ payoutId adminId now).store.partner =
      { pn with available_balance := .num (parseFloatOr0 pn.available_balance - p.amount) } ∧
    (approvePayout env ⟨some p, pn⟩ payoutId adminId now).writes =
      [.payoutApprove payoutId now adminId,
       .partnerBalance p.partner_id (parseFloatOr0 pn.available_balance - p.amount) now] ∧
    (parseFloatOr0 pn.available_balance - p.amount) + p.amount =
      parseFloatOr0 pn.available_balance := by
  refine ⟨?_, ?_, ?_, ?_, by ring⟩ <;>
    simp [approvePayout, approveFetchCheck, approveWritePhase, hfetch, hpu, hbu,
      hid, hpid, hstatus, not_lt.mpr hbal]

/-- Witness for C1, on the spec's own example: payout P1 of amount 100
against a balance of 250 yields previous 250, new 150. -/
theorem approvePayout_success_witness :
    (approvePayout ⟨false, none, none, false, false, false⟩
        ⟨some ⟨"P1", "N1", 100, "pending", none, none, none, none, none, none⟩,
         ⟨"N1", BalVal.num 250, "Acme Travel", "partner@acme.test"⟩⟩
        "P1" (some "A1") "T").result =
      .ok ⟨"Payout approved successfully", "P1", 100, "Acme Travel", 250, 150⟩ ∧
    (approvePayout ⟨false, none, none, false, false, false⟩
        ⟨some ⟨"P1", "N1", 100, "pending", none, none, none, none, none, none⟩,
         ⟨"N1", BalVal.num 250, "Acme Travel", "partner@acme.test"⟩⟩
        "P1" (some "A1") "T").store =
      ⟨some ⟨"P1", "N1", 100, "approved", some "T", some "A1", some "T", none, none, none⟩,
       ⟨"N1", BalVal.num 150, "Acme Travel", "partner@acme.test"⟩⟩ ∧
    (150 : ℚ) + 100 = 250 := by
  have h := approvePayout_success ⟨false, none, none, false, false, false⟩
    ⟨"P1", "N1", 100, "pending", none, none, none, none, none, none⟩
    ⟨"N1", BalVal.num 250, "Acme Travel", "partner@acme.test"⟩
    "P1" (some "A1") "T" rfl rfl rfl rfl rfl rfl (by decide)
  refine ⟨by rw [h.1]; norm_num [parseFloatOr0], ?_, by norm_num⟩
  have h2 := h.2.1
  have h3 := h.2.2.1
  have heta : (approvePayout ⟨false, none, none, false, false, false⟩
      ⟨some ⟨"P1", "N1", 100, "pending", none, none, none, none, none, none⟩,
       ⟨"N1", BalVal.num 250, "Acme Travel", "partner@acme.test"⟩⟩
      "P1" (some "A1") "T").store =
    ⟨(approvePayout ⟨false, none, none, false, false, false⟩
      ⟨some ⟨"P1", "N1", 100, "pending", none, none, none, none, none, none⟩,
       ⟨"N1", BalVal.num 250, "Acme Travel", "partner@acme.test"⟩⟩
      "P1" (some "A1") "T").store.payout,
     (approvePayout ⟨false, none, none, false, false, false⟩
      ⟨some ⟨"P1", "N1", 100, "pending", none, none, none, none, none, none⟩,
       ⟨"N1", BalVal.num 250, "Acme Travel", "partner@acme.test"⟩⟩
      "P1" (some "A1") "T").store.partner⟩ := rfl
  rw [heta, h2, h3]
  norm_num [parseFloatOr0]

/-- C4: for a payout whose status is not `pending`, both `approvePayout`
and `rejectPayout` throw the invalid-state error — whose message contains
the payout's current status — and issue no store write, leaving payout
and partner records unchanged. -/
theorem nonPending_invalidState_no_writes (env : Env) (p : Payout) (pn : Partner)
    (payoutId : String) (adminId : Option String) (reason now : String)
    (hfetch : env.fetchError = false)
    (hid : p.id = payoutId)
    (hpid : p.partner_id = pn.id)
    (hstatus : p.status ≠ "pending") :
    approvePayout env ⟨some p, pn⟩ payoutId adminId now =
      ⟨.error ("Cannot approve payout with status: " ++ p.status), ⟨some p, pn⟩, [], []⟩ ∧
    rejectPayout env ⟨some p, pn⟩ payoutId adminId reason now =
      ⟨.error ("Cannot reject payout with status: " ++ p.status), ⟨some p, pn⟩, [], []⟩ ∧
    p.status.data <:+ ("Cannot approve payout with status: " ++ p.status).data ∧
    p.status.data <:+ ("Cannot reject payout with status: " ++ p.status).data := by
  refine ⟨?_, ?_, ?_, ?_⟩
  · simp [approvePayout, approveFetchCheck, hfetch, hid, hpid, hstatus]
  · simp [rejectPayout, hfetch, hid, hpid, hstatus]
  · exact ⟨"Cannot approve payout with status: ".data, (String.data_append _ _).symm⟩
  · exact ⟨"Cannot reject payout with status: ".data, (String.data_append _ _).symm⟩

/-- Witness for C4: an already-approved payout is refused by both
operations with no store writes. -/
theorem nonPending_invalidState_no_writes_witness :
    approvePayout ⟨false, none, none, false, false, false⟩
        ⟨some ⟨"P2", "N1", 100, "approved", none, none, none, none, none, none⟩,
         ⟨"N1", BalVal.num 250, "Acme Travel", "partner@acme.test"⟩⟩
        "P2" (some "A1") "T" =
      ⟨.error "Cannot approve payout with status: approved",
       ⟨some ⟨"P2", "N1", 100, "approved", none, none, none, none, none, none⟩,
        ⟨"N1", BalVal.num 250, "Acme Travel", "partner@acme.test"⟩⟩, [], []⟩ ∧
    rejectPayout ⟨false, none, none, false, false, false⟩
        ⟨some ⟨"P2", "N1", 100, "approved", none, none, none, none, none, none⟩,
         ⟨"N1", BalVal.num 250, "Acme Travel", "partner@acme.test"⟩⟩
        "P2" (some "A1") "dup" "T" =
      ⟨.error "Cannot reject payout with status: approved",
       ⟨some ⟨"P2", "N1", 100, "approved", none, none, none, none, none, none⟩,
        ⟨"N1", BalVal.num 250, "Acme Travel", "partner@acme.test"⟩⟩, [], []⟩ := by
  have h := nonPending_invalidState_no_writes ⟨false, none, none, false, false, false⟩
    ⟨"P2", "N1", 100, "approved", none, none, none, none, none, none⟩
    ⟨"N1", BalVal.num 250, "Acme Travel", "partner@acme.test"⟩
    "P2" (some "A1") "dup" "T" rfl rfl rfl (by decide)
  exact ⟨h.1, h.2.1⟩

/-- C5: a pending payout whose partner balance is below the requested
amount is refused with the insufficient-funds error — the message carries
both values formatted by `toFixed(2)` — and no store write is issued. -/
theorem insufficientFunds_no_writes (env : Env) (p : Payout) (pn : Partner)
    (payoutId : String) (adminId : Option String) (now : String)
    (hfetch : env.fetchError = false)
    (hid : p.id = payoutId)
    (hpid : p.partner_id = pn.id)
    (hstatus : p.status = "pending")
    (hbal : parseFloatOr0 pn.available_balance < p.amount) :
    approvePayout env ⟨some p, pn⟩ payoutId adminId now =
      ⟨.error ("Insufficient partner balance. Available: $" ++
          toFixed2 (parseFloatOr0 pn.available_balance) ++
          ", Required: $" ++ toFixed2 p.amount),
       ⟨some p, pn⟩, [], []⟩ := by
  simp [approvePayout, approveFetchCheck, hfetch, hid, hpid, hstatus, hbal]

/-- Witness for C5: a payout of 300 against a balance of 250.50 is
refused, quoting `$250.50` and `$300.00`. -/
theorem insufficientFunds_no_writes_witness :
    approvePayout ⟨false, none, none, false, false, false⟩
        ⟨some ⟨"P3", "N1", 300, "pending", none, none, none, none, none, none⟩,
         ⟨"N1", BalVal.num (501/2), "Acme Travel", "partner@acme.test"⟩⟩
        "P3" (some "A1") "T" =
      ⟨.error "Insufficient partner balance. Available: $250.50, Required: $300.00",
       ⟨some ⟨"P3", "N1", 300, "pending", none, none, none, none, none, none⟩,
        ⟨"N1", BalVal.num (501/2), "Acme Travel", "partner@acme.test"⟩⟩, [], []⟩ := by
  have h := insufficientFunds_no_writes ⟨false, none, none, false, false, false⟩
    ⟨"P3", "N1", 300, "pending", none, none, none, none, none, none⟩
    ⟨"N1", BalVal.num (501/2), "Acme Travel", "partner@acme.test"⟩
    "P3" (some "A1") "T" rfl rfl rfl rfl (by norm_num [parseFloatOr0])
  have hn : ((501 : ℚ)/2).num = 501 := by norm_num
  have hd : ((501 : ℚ)/2).den = 2 := by norm_num
  have hn2 : ((300 : ℚ)).num = 300 := by norm_num
  have hd2 : ((300 : ℚ)).den = 1 := by norm_num
  rw [h]
  congr 1
  simp only [parseFloatOr0, toFixed2, hn, hd, hn2, hd2]
  decide

/-- C10: when the partner's `available_balance` is `null`, absent, or a
non-numeric string, the balance is coerced to `0`, so any positive-amount
payout is refused with the insufficient-funds error quoting `$0.00`, and
no store write (and no type error) occurs. -/
theorem approvePayout_badBalance_coerced (env : Env) (p : Payout) (pn : Partner)
    (payoutId : String) (adminId : Option String) (now : String)
    (hfetch : env.fetchError = false)
    (hid : p.id = payoutId)
    (hpid : p.partner_id = pn.id)
    (hstatus : p.status = "pending")
    (hbad : pn.available_balance = .null ∨ pn.available_balance = .missing ∨
            ∃ s, pn.available_balance = .nonNumeric s)
    (hamt : 0 < p.amount) :
    approvePayout env ⟨some p, pn⟩ payoutId adminId now =
      ⟨.error ("Insufficient partner balance. Available: $0.00, Required: $" ++
          toFixed2 p.amount),
       ⟨some p, pn⟩, [], []⟩ := by
  have h0 : parseFloatOr0 pn.available_balance = 0 := by
    rcases hbad with h | h | ⟨s, h⟩ <;> simp [h, parseFloatOr0]
  have hmsg : "Insufficient partner balance. Available: $" ++ toFixed2 (0 : ℚ) ++
      ", Required: $" = "Insufficient partner balance. Available: $0.00, Required: $" := by
    have hn : (0 : ℚ).num = 0 := by norm_num
    have hd : (0 : ℚ).den = 1 := by norm_num
    simp only [toFixed2, hn, hd]
    decide
  have h := insufficientFunds_no_writes env p pn payoutId adminId now hfetch hid hpid
    hstatus (by rw [h0]; exact hamt)
  rw [h, h0, hmsg]

/-- Witness for C10: a null balance with a payout of 75 is refused
quoting `$0.00` and `$75.00`. -/
theorem approvePayout_badBalance_coerced_witness :
    approvePayout ⟨false, none, none, false, false, false⟩
        ⟨some ⟨"P4", "N1", 75, "pending", none, none, none, none, none, none⟩,
         ⟨"N1", BalVal.null, "Acme Travel", "partner@acme.test"⟩⟩
        "P4" (some "A1") "T" =
      ⟨.error "Insufficient partner balance. Available: $0.00, Required: $75.00",
       ⟨some ⟨"P4", "N1", 75, "pending", none, none, none, none, none, none⟩,
        ⟨"N1", BalVal.null, "Acme Travel", "partner@acme.test"⟩⟩, [], []⟩ := by
  have h := approvePayout_badBalance_coerced ⟨false, none, none, false, false, false⟩
    ⟨"P4", "N1", 75, "pending", none, none, none, none, none, none⟩
    ⟨"N1", BalVal.null, "Acme Travel", "partner@acme.test"⟩
    "P4" (some "A1") "T" rfl rfl rfl rfl (Or.inl rfl) (by norm_num)
  rw [h]
  congr 1

/-- C8: rejecting a pending payout stores status `rejected`, the
timestamp, the admin id, and the given reason — replaced by the default
`'Rejected by admin'` when the reason is empty — and returns the payout
id together with the given rejection reason. -/
theorem rejectPayout_success (env : Env) (p : Payout) (pn : Partner)
    (payoutId : String) (adminId : Option String) (reason now : String)
    (hfetch : env.fetchError = false)
    (hupd : env.rejectUpdateError = false)
    (hid : p.id = payoutId)
    (hpid : p.partner_id = pn.id)
    (hstatus : p.status = "pending") :
    (rejectPayout env ⟨some p, pn⟩ payoutId adminId reason now).result =
      .ok ⟨"Payout rejected successfully", payoutId, reason⟩ ∧
    (rejectPayout env ⟨some p, pn⟩ payoutId adminId reason now).store.payout = some
      { p with status := "rejected", rejected_at := some now, rejected_by := adminId,
               rejection_reason := some (if reason = "" then "Rejected by admin" else reason) } ∧
    (rejectPayout env ⟨some p, pn⟩ payoutId adminId reason now).store.partner = pn ∧
    (rejectPayout env ⟨some p, pn⟩ payoutId adminId reason now).writes =
      [.payoutReject payoutId now adminId
        (if reason = "" then "Rejected by admin" else reason)] := by
  refine ⟨?_, ?_, ?_, ?_⟩ <;>
    simp [rejectPayout, hfetch, hupd, hid, hpid, hstatus]

/-- Witness for C8, with an empty reason: the stored reason is the
default message while the returned reason is the empty string. -/
theorem rejectPayout_success_witness :
    (rejectPayout ⟨false, none, none, false, false, false⟩
        ⟨some ⟨"P5", "N1", 100, "pending", none, none, none, none, none, none⟩,
         ⟨"N1", BalVal.num 250, "Acme Travel", "partner@acme.test"⟩⟩
        "P5" (some "A1") "" "T").result =
      .ok ⟨"Payout rejected successfully", "P5", ""⟩ ∧
    (rejectPayout ⟨false, none, none, false, false, false⟩
        ⟨some ⟨"P5", "N1", 100, "pending", none, none, none, none, none, none⟩,
         ⟨"N1", BalVal.num 250, "Acme Travel", "partner@acme.test"⟩⟩
        "P5" (some "A1") "" "T").store.payout =
      some ⟨"P5", "N1", 100, "rejected", none, none, none, some "T", some "A1",
            some "Rejected by admin"⟩ := by
  have h := rejectPayout_success ⟨false, none, none, false, false, false⟩
    ⟨"P5", "N1", 100, "pending", none, none, none, none, none, none⟩
    ⟨"N1", BalVal.num 250, "Acme Travel", "partner@acme.test"⟩
    "P5" (some "A1") "" "T" rfl rfl rfl rfl rfl
  exact ⟨h.1, by rw [h.2.1]; decide⟩

/-- C9: for every request with a non-empty `payoutId`, the controller's
`approvePayout` handler evaluates the undeclared `adminId`, raising a
`ReferenceError` that its `catch` turns into an HTTP 400 response with
`success: false` — whatever the service would have returned; the success
branch is unreachable. -/
theorem controllerApprovePayout_always_400 (payoutId : String)
    (svc : String → Option String → Except String ApproveResult)
    (h : payoutId ≠ "") :
    controllerApprovePayout payoutId svc =
      ⟨400, false, some "adminId is not defined"⟩ := by
  simp [controllerApprovePayout, adminIdReference, h]

/-- Witness for C9: even a service that would always succeed is never
reached. -/
theorem controllerApprovePayout_always_400_witness :
    controllerApprovePayout "P1"
      (fun pid _ => .ok ⟨"Payout approved successfully", pid, 100, "Acme Travel", 250, 150⟩) =
      ⟨400, false, some "adminId is not defined"⟩ :=
  controllerApprovePayout_always_400 "P1" _ (by decide)

/-- A string differs from another whenever their character data disagree
at some position. -/
lemma string_getElem_ne {s t : String} (i : Nat)
    (h : s.data[i]? ≠ t.data[i]?) : s ≠ t :=
  fun he => h (by rw [he])

/-- Appends onto two literal prefixes always differ when the prefixes
disagree at a position both cover. -/
lemma append_ne_append (a b : String) (i : Nat)
    (hia : i < a.data.length) (hib : i < b.data.length)
    (h : a.data[i]? ≠ b.data[i]?) (m n : String) : a ++ m ≠ b ++ n := by
  apply string_getElem_ne i
  rw [String.data_append, String.data_append,
    List.getElem?_append_left hia, List.getElem?_append_left hib]
  exact h

/-- C2: when the partner-balance update fails after the payout-status
update succeeded, `approvePayout` issues the compensating write — the
payout is back at `pending` with `approved_at`/`approved_by` cleared, the
partner untouched — and rethrows the failure as the
balance-update-failure error, which differs from every other error the
operation can produce; it is never swallowed. -/
theorem approvePayout_compensation (env : Env) (p : Payout) (pn : Partner)
    (payoutId : String) (adminId : Option String) (now m : String)
    (hfetch : env.fetchError = false)
    (hpu : env.payoutUpdateError = none)
    (hbu : env.partnerUpdateError = some m)
    (hrb : env.rollbackFails = false)
    (hid : p.id = payoutId)
    (hpid : p.partner_id = pn.id)
    (hstatus : p.status = "pending")
    (hbal : p.amount ≤ parseFloatOr0 pn.available_balance) :
    (approvePayout env ⟨some p, pn⟩ payoutId adminId now).result =
      .error ("Failed to update partner balance: " ++ m) ∧
    (approvePayout env ⟨some p, pn⟩ payoutId adminId now).store.payout = some
      { p with status := "pending", approved_at := none, approved_by := none,
               processed_at := none } ∧
    (approvePayout env ⟨some p, pn⟩ payoutId adminId now).store.partner = pn ∧
    (approvePayout env ⟨some p, pn⟩ payoutId adminId now).writes =
      [.payoutApprove payoutId now adminId, .payoutRollback payoutId] ∧
    (∀ e, "Failed to update partner balance: " ++ m ≠
      "Failed to approve payout: " ++ e) ∧
    (∀ s, "Failed to update partner balance: " ++ m ≠
      "Cannot approve payout with status: " ++ s) ∧
    (∀ a b, "Failed to update partner balance: " ++ m ≠
      "Insufficient partner balance. Available: $" ++ a ++ ", Required: $" ++ b) ∧
    "Failed to update partner balance: " ++ m ≠ "Payout not found" := by
  refine ⟨?_, ?_, ?_, ?_, ?_, ?_, ?_, ?_⟩
  · simp [approvePayout, approveFetchCheck, approveWritePhase, hfetch, hpu, hbu, hrb,
      hid, hpid, hstatus, not_lt.mpr hbal]
  · simp [approvePayout, approveFetchCheck, approveWritePhase, hfetch, hpu, hbu, hrb,
      hid, hpid, hstatus, not_lt.mpr hbal]
  · simp [approvePayout, approveFetchCheck, approveWritePhase, hfetch, hpu, hbu, hrb,
      hid, hpid, hstatus, not_lt.mpr hbal]
  · simp [approvePayout, approveFetchCheck, approveWritePhase, hfetch, hpu, hbu, hrb,
      hid, hpid, hstatus, not_lt.mpr hbal]
  · exact fun e => append_ne_append _ _ 10 (by decide) (by decide) (by decide) m e
  · exact fun s => append_ne_append _ _ 0 (by decide) (by decide) (by decide) m s
  · intro a b
    rw [String.append_assoc, String.append_assoc]
    exact append_ne_append _ _ 0 (by decide) (by decide) (by decide) m _
  · rw [show "Payout not found" = "Payout not found" ++ "" from
      (String.append_empty _).symm]
    exact append_ne_append _ _ 0 (by decide) (by decide) (by decide) m ""

/-- Witness for C2: a forced balance-update failure (`boom`) leaves the
payout reverted to `pending` and surfaces the distinct
`Failed to update partner balance: boom` error. -/
theorem approvePayout_compensation_witness :
    (approvePayout ⟨false, none, some "boom", false, false, false⟩
        ⟨some ⟨"P1", "N1", 100, "pending", none, none, none, none, none, none⟩,
         ⟨"N1", BalVal.num 250, "Acme Travel", "partner@acme.test"⟩⟩
        "P1" (some "A1") "T").result =
      .error "Failed to update partner balance: boom" ∧
    (approvePayout ⟨false, none, some "boom", false, false, false⟩
        ⟨some ⟨"P1", "N1", 100, "pending", none, none, none, none, none, none⟩,
         ⟨"N1", BalVal.num 250, "Acme Travel", "partner@acme.test"⟩⟩
        "P1" (some "A1") "T").store =
      ⟨some ⟨"P1", "N1", 100, "pending", none, none, none, none, none, none⟩,
       ⟨"N1", BalVal.num 250, "Acme Travel", "partner@acme.test"⟩⟩ ∧
    (approvePayout ⟨false, none, some "boom", false, false, false⟩
        ⟨some ⟨"P1", "N1", 100, "pending", none, none, none, none, none, none⟩,
         ⟨"N1", BalVal.num 250, "Acme Travel", "partner@acme.test"⟩⟩
        "P1" (some "A1") "T").writes =
      [.payoutApprove "P1" "T" (some "A1"), .payoutRollback "P1"] ∧
    "Failed to update partner balance: boom" ≠ "Payout not found" := by
  have h := approvePayout_compensation ⟨false, none, some "boom", false, false, false⟩
    ⟨"P1", "N1", 100, "pending", none, none, none, none, none, none⟩
    ⟨"N1", BalVal.num 250, "Acme Travel", "partner@acme.test"⟩
    "P1" (some "A1") "T" "boom" rfl rfl rfl rfl rfl rfl rfl (by norm_num [parseFloatOr0])
  refine ⟨h.1, ?_, h.2.2.2.1, h.2.2.2.2.2.2.2⟩
  have h2 := h.2.1
  have h3 := h.2.2.1
  have heta : (approvePayout ⟨false, none, some "boom", false, false, false⟩
      ⟨some ⟨"P1", "N1", 100, "pending", none, none, none, none, none, none⟩,
       ⟨"N1", BalVal.num 250, "Acme Travel", "partner@acme.test"⟩⟩
      "P1" (some "A1") "T").store =
    ⟨(approvePayout ⟨false, none, some "boom", false, false, false⟩
      ⟨some ⟨"P1", "N1", 100, "pending", none, none, none, none, none, none⟩,
       ⟨"N1", BalVal.num 250, "Acme Travel", "partner@acme.test"⟩⟩
      "P1" (some "A1") "T").store.payout,
     (approvePayout ⟨false, none, some "boom", false, false, false⟩
      ⟨some ⟨"P1", "N1", 100, "pending", none, none, none, none, none, none⟩,
       ⟨"N1", BalVal.num 250, "Acme Travel", "partner@acme.test"⟩⟩
      "P1" (some "A1") "T").store.partner⟩ := rfl
  rw [heta, h2, h3]

/-- C7: the notifier is fire-and-forget — whether the email step fails or
succeeds, `approvePayout` and `rejectPayout` return the same result,
leave the same store, and issue the same writes; the failure never
propagates to the caller. -/
theorem notifier_failure_invisible (env : Env) (st : Store) (payoutId : String)
    (adminId : Option String) (reason now : String) :
    ((approvePayout { env with emailFails := true } st payoutId adminId now).result =
      (approvePayout { env with emailFails := false } st payoutId adminId now).result ∧
     (approvePayout { env with emailFails := true } st payoutId adminId now).store =
      (approvePayout { env with emailFails := false } st payoutId adminId now).store ∧
     (approvePayout { env with emailFails := true } st payoutId adminId now).writes =
      (approvePayout { env with emailFails := false } st payoutId adminId now).writes) ∧
    ((rejectPayout { env with emailFails := true } st payoutId adminId reason now).result =
      (rejectPayout { env with emailFails := false } st payoutId adminId reason now).result ∧
     (rejectPayout { env with emailFails := true } st payoutId adminId reason now).store =
      (rejectPayout { env with emailFails := false } st payoutId adminId reason now).store ∧
     (rejectPayout { env with emailFails := true } st payoutId adminId reason now).writes =
      (rejectPayout { env with emailFails := false } st payoutId adminId reason now).writes) := by
  rcases env with ⟨fe, pue, bue, rb, rue, ef⟩
  rcases st with ⟨op, pn⟩
  rcases op with _ | p
  · refine ⟨⟨?_, ?_, ?_⟩, ⟨?_, ?_, ?_⟩⟩ <;> rfl
  · have hsc : approveFetchCheck ⟨fe, pue, bue, rb, rue, true⟩ ⟨some p, pn⟩ payoutId =
        approveFetchCheck ⟨fe, pue, bue, rb, rue, false⟩ ⟨some p, pn⟩ payoutId := rfl
    cases pue <;> cases bue <;>
      refine ⟨⟨?_, ?_, ?_⟩, ⟨?_, ?_, ?_⟩⟩ <;>
      simp only [approvePayout, rejectPayout, approveWritePhase, hsc] <;>
      (repeat' split) <;> rfl

/-- The read/check phase only succeeds when the amount is covered by the
balance it read, and the balance it read is the partner's stored one. -/
lemma approveFetchCheck_ok_facts {env : Env} {st : Store} {payoutId : String}
    {l : ApproveLocals} (h : approveFetchCheck env st payoutId = .ok l) :
    l.payoutAmount ≤ l.currentAvailableBalance ∧
    l.currentAvailableBalance = parseFloatOr0 st.partner.available_balance := by
  rcases st with ⟨op, pn⟩
  rcases op with _ | p
  · simp [approveFetchCheck] at h
  · simp only [approveFetchCheck] at h
    split at h
    · simp at h
    · split at h
      · simp at h
      · split at h
        · simp at h
        · rename_i hnot
          simp only [Except.ok.injEq] at h
          subst h
          exact ⟨not_lt.mp hnot, rfl⟩

/-- C6: starting from a non-negative partner balance, no execution of
`approvePayout` — whatever the injected store failures — stores or writes
a negative balance: the deduction uses the balance read in the same
operation, which the guard has checked against the amount. -/
theorem approvePayout_balance_never_negative (env : Env) (p : Payout) (pn : Partner)
    (payoutId : String) (adminId : Option String) (now : String)
    (hbal0 : 0 ≤ parseFloatOr0 pn.available_balance)
    (hamt : 0 < p.amount) :
    0 ≤ parseFloatOr0
      (approvePayout env ⟨some p, pn⟩ payoutId adminId now).store.partner.available_balance ∧
    ((approvePayout env ⟨some p, pn⟩ payoutId adminId now).writes.all fun w =>
      match w with
      | .partnerBalance _ b _ => decide (0 ≤ b)
      | _ => true) = true := by
  unfold approvePayout
  cases hfc : approveFetchCheck env ⟨some p, pn⟩ payoutId with
  | error e => exact ⟨hbal0, rfl⟩
  | ok l =>
    obtain ⟨hle, hcur⟩ := approveFetchCheck_ok_facts hfc
    have hnn : (0 : ℚ) ≤ l.currentAvailableBalance - l.payoutAmount := sub_nonneg.mpr hle
    simp only [approveWritePhase]
    repeat' split
    all_goals
      simp_all [parseFloatOr0, List.all, hbal0, hnn]

/-- Witness for C6 on the spec's example: balance 250, amount 100. -/
theorem approvePayout_balance_never_negative_witness :
    0 ≤ parseFloatOr0
      (approvePayout ⟨false, none, none, false, false, false⟩
        ⟨some ⟨"P1", "N1", 100, "pending", none, none, none, none, none, none⟩,
         ⟨"N1", BalVal.num 250, "Acme Travel", "partner@acme.test"⟩⟩
        "P1" (some "A1") "T").store.partner.available_balance ∧
    ((approvePayout ⟨false, none, none, false, false, false⟩
        ⟨some ⟨"P1", "N1", 100, "pending", none, none, none, none, none, none⟩,
         ⟨"N1", BalVal.num 250, "Acme Travel", "partner@acme.test"⟩⟩
        "P1" (some "A1") "T").writes.all fun w =>
      match w with
      | .partnerBalance _ b _ => decide (0 ≤ b)
      | _ => true) = true :=
  approvePayout_balance_never_negative ⟨false, none, none, false, false, false⟩
    ⟨"P1", "N1", 100, "pending", none, none, none, none, none, none⟩
    ⟨"N1", BalVal.num 250, "Acme Travel", "partner@acme.test"⟩
    "P1" (some "A1") "T" (by norm_num [parseFloatOr0]) (by norm_num)

/-- The concurrency scene for C3: payout P1 (amount 100, pending) of
partner N1 (balance 250), no injected store failures. -/
def c3Env : Env := ⟨false, none, none, false, false, false⟩

/-- The pending payout row of the C3 scene. -/
def c3Payout : Payout := ⟨"P1", "N1", 100, "pending", none, none, none, none, none, none⟩

/-- The partner row of the C3 scene. -/
def c3Partner : Partner := ⟨"N1", BalVal.num 250, "Acme Travel", "partner@acme.test"⟩

/-- The initial store of the C3 scene. -/
def c3Store : Store := ⟨some c3Payout, c3Partner⟩

/-- The locals both requests obtain when their fetches run against the
initial store, i.e. before either request has written. -/
def c3Locals : ApproveLocals := ⟨c3Payout, c3Partner, 100, 250⟩

/-- Request A's write phase, applied to the initial store. -/
def c3OutA : Outcome ApproveResult :=
  approveWritePhase c3Env c3Store c3Locals "P1" (some "A1") "T1"

/-- Request B's write phase, applied to the store left by A but using the
locals B fetched before A wrote — the interleaving
`A.fetch, B.fetch, A.writes, B.writes`. -/
def c3OutB : Outcome ApproveResult :=
  approveWritePhase c3Env c3OutA.store c3Locals "P1" (some "A2") "T2"

/-- C3: the payout status write is matched by `id` alone — there is no
conditional update guarded by the prior status `pending` — so in the
schedule where both requests fetch before the first write, BOTH
concurrent approval attempts succeed (neither observes an invalid-state
conflict), refuting the claimed compare-and-swap behaviour. -/
theorem approvePayout_conditional_update_missing :
    approveFetchCheck c3Env c3Store "P1" = .ok c3Locals ∧
    c3OutA.result = .ok ⟨"Payout approved successfully", "P1", 100, "Acme Travel", 250, 150⟩ ∧
    c3OutB.result = .ok ⟨"Payout approved successfully", "P1", 100, "Acme Travel", 250, 150⟩ ∧
    c3OutB.store.partner.available_balance = BalVal.num 150 := by
  have hlt : ¬ ((250 : ℚ) < 100) := by norm_num
  have h150 : (250 : ℚ) - 100 = 150 := by norm_num
  refine ⟨?_, ?_, ?_, ?_⟩
  · simp [approveFetchCheck, c3Env, c3Store, c3Payout, c3Partner, c3Locals,
      parseFloatOr0, hlt]
  · simp [c3OutA, approveWritePhase, c3Env, c3Store, c3Locals, c3Payout, c3Partner, h150]
  · simp [c3OutB, c3OutA, approveWritePhase, c3Env, c3Store, c3Locals, c3Payout,
      c3Partner, h150]
  · simp [c3OutB, c3OutA, approveWritePhase, c3Env, c3Store, c3Locals, c3Payout,
      c3Partner, h150]
